import Mathlib

set_option autoImplicit false

/-!
Shallow embedding of `src/src/celephem/scriptrotation.cpp` — the
`ScriptedRotation` class of Celestia, a rotation model implemented via a
Lua script.

The slice of the Lua C API used by that file is modelled explicitly: a
Lua state is a value stack (head = top of stack) together with a table
of globals.  Lua functions are opaque identifiers interpreted by an
environment (`LuaEnv`) mapping a function id and an argument list to
either a list of result values or a runtime-error message.  C++
`double` values are modelled as exact rationals; the claims under study
concern control flow and equality/ordering comparisons only.  Diagnostic
output (`GetLogger()->warn/error`) is modelled as a list of levelled
messages returned alongside each result.
-/

namespace CelScriptRotation

/-- A Lua value as manipulated through the C API in scriptrotation.cpp.
Tables are modelled by their string-keyed fields (the only accesses the
source performs are string-keyed); functions are opaque identifiers
interpreted by a `LuaEnv`. -/
inductive LuaValue where
  | nil
  | num (x : ℚ)
  | str (s : String)
  | table (fields : List (String × LuaValue))
  | fn (id : Nat)

/-- First binding of `key` in an association list of Lua table fields
(or of Lua globals). -/
def assocGet : List (String × LuaValue) → String → Option LuaValue
  | [], _ => none
  | (k, v) :: rest, key => if k = key then some v else assocGet rest key

/-- Replace the first binding of `key`, or append one. -/
def assocSet : List (String × LuaValue) → String → LuaValue → List (String × LuaValue)
  | [], key, v => [(key, v)]
  | (k, w) :: rest, key, v =>
      if k = key then (k, v) :: rest else (k, w) :: assocSet rest key v

/-- The Lua state as seen through the C API calls in scriptrotation.cpp:
the value stack (head of the list = top of the stack) and the table of
globals. -/
structure LuaState where
  stack : List LuaValue
  globals : List (String × LuaValue)

/-- Interpretation of Lua function values: given the function id and the
argument list (in call order), either the list of returned values or a
runtime-error message.  This models the behaviour of the script-side
functions (`require`, the factory function, the `orientation` method). -/
def LuaEnv : Type := Nat → List LuaValue → Except String (List LuaValue)

/-- The value at a top-relative (negative) stack index; the source only
ever uses negative indices. -/
def stackIdx (L : LuaState) (i : Int) : LuaValue :=
  L.stack.getD (-(i + 1)).toNat .nil

/-- lua_getglobal: push the named global (nil when absent). -/
def lua_getglobal (L : LuaState) (name : String) : LuaState :=
  { L with stack := (assocGet L.globals name).getD .nil :: L.stack }

/-- lua_setglobal: pop the top of the stack and bind it to the name. -/
def lua_setglobal (L : LuaState) (name : String) : LuaState :=
  { stack := L.stack.drop 1,
    globals := assocSet L.globals name (stackIdx L (-1)) }

/-- lua_pop(L, n). -/
def lua_pop (L : LuaState) (n : Nat) : LuaState :=
  { L with stack := L.stack.drop n }

/-- lua_pushstring. -/
def lua_pushstring (L : LuaState) (s : String) : LuaState :=
  { L with stack := .str s :: L.stack }

/-- lua_pushnumber. -/
def lua_pushnumber (L : LuaState) (x : ℚ) : LuaState :=
  { L with stack := .num x :: L.stack }

/-- Push an arbitrary Lua value (used to model pushing parameter values). -/
def luaPush (L : LuaState) (v : LuaValue) : LuaState :=
  { L with stack := v :: L.stack }

/-- lua_newtable: push a fresh empty table. -/
def lua_newtable (L : LuaState) : LuaState :=
  { L with stack := .table [] :: L.stack }

/-- lua_pushvalue: push a copy of the value at the given index. -/
def lua_pushvalue (L : LuaState) (i : Int) : LuaState :=
  { L with stack := stackIdx L i :: L.stack }

/-- lua_isfunction. -/
def lua_isfunction (L : LuaState) (i : Int) : Bool :=
  match stackIdx L i with
  | .fn _ => true
  | _ => false

/-- lua_istable. -/
def lua_istable (L : LuaState) (i : Int) : Bool :=
  match stackIdx L i with
  | .table _ => true
  | _ => false

/-- Conversion of a Lua value to a number: numbers convert to
themselves, everything else to 0 (string-to-number coercion never arises
on the values this code reads). -/
def luaToNum : LuaValue → ℚ
  | .num x => x
  | _ => 0

/-- lua_tonumber. -/
def lua_tonumber (L : LuaState) (i : Int) : ℚ :=
  luaToNum (stackIdx L i)

/-- lua_tostring, used by the source only on pcall error messages, which
are strings in this model; other values stringify to "". -/
def lua_tostring (L : LuaState) (i : Int) : String :=
  match stackIdx L i with
  | .str s => s
  | _ => ""

/-- lua_gettable(L, i): pop the key from the top of the stack and push
`t[key]` where `t` is the table at index `i` (nil when the key is absent
or the indexed value is not a table with a string key). -/
def lua_gettable (L : LuaState) (i : Int) : LuaState :=
  let key := stackIdx L (-1)
  let t := stackIdx L i
  let v := match t, key with
    | .table flds, .str s => (assocGet flds s).getD .nil
    | _, _ => .nil
  { L with stack := v :: L.stack.drop 1 }

/-- lua_settable(L, -3), the only form the source uses: pop the value and
the key from the top of the stack and store the binding into the table
directly below them. -/
def lua_settable (L : LuaState) : LuaState :=
  let v := stackIdx L (-1)
  let k := stackIdx L (-2)
  let t := stackIdx L (-3)
  let t' := match t, k with
    | .table flds, .str s => LuaValue.table (assocSet flds s v)
    | _, _ => t
  { L with stack := t' :: L.stack.drop 3 }

/-- Lua adjusts the results of a call to the requested count, truncating
extra values and padding with nil. -/
def adjustResults (rs : List LuaValue) (n : Nat) : List LuaValue :=
  rs.take n ++ List.replicate (n - rs.length) .nil

/-- lua_pcall(L, nargs, nresults, 0): the function sits below its `nargs`
arguments on the stack; all of them are popped.  On success the adjusted
results are pushed (first result deepest) and `true` is returned; on a
runtime error the error message is pushed and `false` is returned (the C
API returns 0 on success, nonzero on error). -/
def lua_pcall (env : LuaEnv) (L : LuaState) (nargs nresults : Nat) :
    LuaState × Bool :=
  let args := (L.stack.take nargs).reverse
  let f := L.stack.getD nargs .nil
  let rest := L.stack.drop (nargs + 1)
  match f with
  | .fn i =>
      match env i args with
      | .ok rs => ({ L with stack := (adjustResults rs nresults).reverse ++ rest }, true)
      | .error msg => ({ L with stack := .str msg :: rest }, false)
  | _ => ({ L with stack := .str "attempt to call a non-function value" :: rest }, false)

/-- Severity of a diagnostic emitted through `GetLogger()`. -/
inductive LogLevel where
  | warn
  | error
deriving DecidableEq

/-- One diagnostic message. -/
structure LogMsg where
  lvl : LogLevel
  msg : String
deriving DecidableEq

/-- Eigen::Quaterniond as constructed by the source: components
(w, x, y, z), modelled over exact rationals. -/
structure Quaterniond where
  w : ℚ
  x : ℚ
  y : ℚ
  z : ℚ
deriving DecidableEq

/-- Quaterniond::Identity(). -/
def Quaterniond.identity : Quaterniond := ⟨1, 0, 0, 0⟩

/-- The ScriptedRotation object state.  The member list and its defaults
are declared in scriptrotation.h, which is not part of the studied
sources; they are modelled from the spec: `cacheable` defaults to true,
the one-slot cache starts at the type's identity value with a sentinel
last-evaluation time, numeric members default to 0.  The C++ member
`luaState` (the shared engine handle) is threaded separately as the
`LuaState` argument of the operations. -/
structure ScriptedRotation where
  luaRotationObjectName : String := ""
  period : ℚ := 0
  validRangeBegin : ℚ := 0
  validRangeEnd : ℚ := 0
  lastTime : ℚ := -(10 ^ 50)
  lastOrientation : Quaterniond := Quaterniond.identity
  cacheable : Bool := true
deriving DecidableEq

/-- The shared scripted-object context: `GetScriptedObjectContext()` (nil
when scripting is disabled) together with the monotone counter behind
`GenerateScriptObjectName()`.  Both live in scriptobject.cpp, which is
not part of the studied sources; modelled from the spec: a process-wide
handle to the single engine instance, plus monotonically generated,
never-reused object names. -/
structure ScriptContext where
  lua : Option LuaState
  nameCounter : Nat

/-- Modelled from the spec: `GenerateScriptObjectName` (scriptobject.cpp,
not under src/) produces a fresh global name from a monotone counter, so
no two models collide in the shared namespace. -/
def GenerateScriptObjectName (counter : Nat) : String :=
  "celscriptobj" ++ toString counter

/-- Numeric field of a table value, with a default for an absent or
non-numeric field (and for non-table values). -/
def luaFieldNum (v : LuaValue) (field : String) (defaultValue : ℚ) : ℚ :=
  match v with
  | .table flds =>
      match assocGet flds field with
      | some (.num x) => x
      | _ => defaultValue
  | _ => defaultValue

/-- Modelled from the spec: `SafeGetLuaNumber` (scriptobject.cpp, not
under src/) reads an optional numeric field of the table at stack index
`i`, returning `defaultValue` when the field is absent or not a number,
and leaves the stack as it found it. -/
def SafeGetLuaNumber (L : LuaState) (i : Int) (field : String)
    (defaultValue : ℚ) : ℚ :=
  luaFieldNum (stackIdx L i) field defaultValue

/-- The parameter hash forwarded to the factory: an ordered mapping from
names to values. -/
def Hash : Type := List (String × LuaValue)

/-- Modelled from the spec: `SetLuaVariables` (scriptobject.cpp, not
under src/) stores every declared parameter verbatim into the table at
the top of the stack. -/
def SetLuaVariables (L : LuaState) (params : Hash) : LuaState :=
  params.foldl (fun acc kv => lua_settable (luaPush (lua_pushstring acc kv.1) kv.2)) L

/-- Result of `ScriptedRotation::initialize`: the returned Bool, the
updated object, the updated shared context, the diagnostics emitted, and
the number of script-side calls performed (lua_pcall invocations). -/
structure InitResult where
  ok : Bool
  rot : ScriptedRotation
  ctx : ScriptContext
  logs : List LogMsg
  calls : Nat

/-- Result of `ScriptedRotation::spin`: the returned quaternion, the
updated object (spin is const but the cache members are mutable), the
shared Lua state after the call, the diagnostics emitted, and the number
of script-side calls performed (lua_pcall invocations). -/
structure SpinResult where
  q : Quaterniond
  rot : ScriptedRotation
  lua : LuaState
  logs : List LogMsg
  calls : Nat

/-- Result of the optional module-loading step at the head of
initialize (lines 59–76). -/
structure ModuleLoadResult where
  ok : Bool
  lua : LuaState
  logs : List LogMsg
  calls : Nat

/-- Lines 59–76 of scriptrotation.cpp: when a module name is present and
non-empty, fetch `require`, fail if it is not a function, otherwise call
it on the module name; on a call error pop the message and fail.  On
success the module's return value is left on the stack, exactly as in
the source. -/
def loadModuleStep (env : LuaEnv) (moduleName : Option String)
    (L : LuaState) : ModuleLoadResult :=
  match moduleName with
  | none => ⟨true, L, [], 0⟩
  | some m =>
    if m = "" then ⟨true, L, [], 0⟩
    else
      let L1 := lua_getglobal L "require"
      if lua_isfunction L1 (-1) then
        let L2 := lua_pushstring L1 m
        match lua_pcall env L2 1 1 with
        | (L3, true) => ⟨true, L3, [], 1⟩
        | (L3, false) =>
            ⟨false, lua_pop L3 1,
             [⟨.error, "Failed to load module for ScriptedRotation: " ++
                        lua_tostring L3 (-1) ++ "\n"⟩], 1⟩
      else
        ⟨false, lua_pop L1 1,
         [⟨.error, "Cannot load ScriptedRotation package: require function is unavailable\n"⟩], 0⟩

/-- Lines 103–141 of scriptrotation.cpp, from the generator call result
onward: on a call error log and pop the message; on a non-table result
log and pop it; otherwise register the result under a generated global
name, read the optional `period`/`beginDate`/`endDate` fields, pop the
object, and perform the final valid-range sanity check (the member
fields keep their just-assigned values even on that failure, exactly as
in the source).  `n` is the name counter, `mlLogs`/`mlCalls` the
diagnostics and call count accumulated by the module-loading step. -/
def factoryCallResult (n : Nat) (mlLogs : List LogMsg) (mlCalls : Nat)
    (r : ScriptedRotation) : LuaState × Bool → InitResult
  | (L5, true) =>
    if lua_istable L5 (-1) then
      let name := GenerateScriptObjectName n
      let L6 := lua_pushvalue L5 (-1)
      let L7 := lua_setglobal L6 name
      let period' := SafeGetLuaNumber L7 (-1) "period" 0
      let vb := SafeGetLuaNumber L7 (-1) "beginDate" 0
      let ve := SafeGetLuaNumber L7 (-1) "endDate" 0
      let L8 := lua_pop L7 1
      let r' := { r with luaRotationObjectName := name, period := period',
                         validRangeBegin := vb, validRangeEnd := ve }
      if ve < vb then
        ⟨false, r', ⟨some L8, n + 1⟩,
         mlLogs ++ [⟨.error, "Bad script rotation: valid range end < begin\n"⟩],
         mlCalls + 1⟩
      else
        ⟨true, r', ⟨some L8, n + 1⟩, mlLogs, mlCalls + 1⟩
    else
      ⟨false, r, ⟨some (lua_pop L5 1), n⟩,
       mlLogs ++ [⟨.error, "ScriptedRotation generator function returned bad value.\n"⟩],
       mlCalls + 1⟩
  | (L5, false) =>
      ⟨false, r, ⟨some (lua_pop L5 1), n⟩,
       mlLogs ++ [⟨.error, "Error calling ScriptedRotation generator function: " ++
                             lua_tostring L5 (-1) ++ "\n"⟩],
       mlCalls + 1⟩

/-- ScriptedRotation::initialize (scriptrotation.cpp lines 43–142),
named `initialise` here.  Mirrors the source line by line: nil-parameter
check, context acquisition, optional module load (`loadModuleStep`),
factory lookup, construction of the parameter table, the generator call
and everything after it (`factoryCallResult`). -/
def ScriptedRotation.initialise (env : LuaEnv) (moduleName : Option String)
    (funcName : String) (parameters : Option Hash) (path : String)
    (ctx : ScriptContext) (r : ScriptedRotation) : InitResult :=
  match parameters with
  | none => ⟨false, r, ctx, [], 0⟩
  | some params =>
    match ctx.lua with
    | none =>
        ⟨false, r, ctx,
         [⟨.warn, "ScriptedRotations are currently disabled.\n"⟩], 0⟩
    | some L0 =>
      let ml := loadModuleStep env moduleName L0
      if ml.ok then
        let L1 := lua_getglobal ml.lua funcName
        if lua_isfunction L1 (-1) then
          let L2 := lua_newtable L1
          let L3 := SetLuaVariables L2 params
          let L4 := lua_settable (lua_pushstring (lua_pushstring L3 "AddonPath") path)
          factoryCallResult ctx.nameCounter ml.logs ml.calls r (lua_pcall env L4 1 1)
        else
          ⟨false, r, { ctx with lua := some (lua_pop L1 1) },
           ml.logs ++ [⟨.error, "No Lua function named " ++ funcName ++ " found.\n"⟩],
           ml.calls⟩
      else
        ⟨false, r, { ctx with lua := some ml.lua }, ml.logs, ml.calls⟩

/-- ScriptedRotation::spin (scriptrotation.cpp lines 146–192): the
cache-skip test, re-fetch of the registered object by name, lookup of
its `orientation` field, the guarded call with `(self, time)`, and the
soft-failure branches, each popping what it pushed. -/
def ScriptedRotation.spin (env : LuaEnv) (r : ScriptedRotation)
    (L : LuaState) (tjd : ℚ) : SpinResult :=
  if tjd ≠ r.lastTime ∨ ¬r.cacheable then
    let L1 := lua_getglobal L r.luaRotationObjectName
    if lua_istable L1 (-1) then
      let L2 := lua_gettable (lua_pushstring L1 "orientation") (-2)
      if lua_isfunction L2 (-1) then
        let L3 := lua_pushnumber (lua_pushvalue L2 (-2)) tjd
        match lua_pcall env L3 2 4 with
        | (L4, true) =>
            let q : Quaterniond :=
              ⟨lua_tonumber L4 (-4), lua_tonumber L4 (-3),
               lua_tonumber L4 (-2), lua_tonumber L4 (-1)⟩
            let r' := { r with lastOrientation := q, lastTime := tjd }
            ⟨q, r', lua_pop (lua_pop L4 4) 1, [], 1⟩
        | (L4, false) =>
            ⟨r.lastOrientation, r, lua_pop (lua_pop L4 1) 1,
             [⟨.warn, "ScriptedRotation failed: " ++ lua_tostring L4 (-1) ++ "\n"⟩], 1⟩
      else
        ⟨r.lastOrientation, r, lua_pop (lua_pop L2 1) 1, [], 0⟩
    else
      ⟨r.lastOrientation, r, lua_pop L1 1, [], 0⟩
  else
    ⟨r.lastOrientation, r, L, [], 0⟩

/-- ScriptedRotation::getPeriod (lines 195–202). -/
def ScriptedRotation.getPeriod (r : ScriptedRotation) : ℚ :=
  if r.period = 0 then r.validRangeEnd - r.validRangeBegin
  else r.period

/-- ScriptedRotation::isPeriodic (lines 205–209). -/
def ScriptedRotation.isPeriodic (r : ScriptedRotation) : Bool :=
  decide (r.period ≠ 0)

/-- ScriptedRotation::getValidRange (lines 212–217). -/
def ScriptedRotation.getValidRange (r : ScriptedRotation) : ℚ × ℚ :=
  (r.validRangeBegin, r.validRangeEnd)

/-- The value registered under a name in the engine's global namespace
(nil when absent); used to state properties of spin. -/
def lookupGlobal (L : LuaState) (name : String) : LuaValue :=
  (assocGet L.globals name).getD .nil

/-! Helper lemmas about the stack primitives. -/

theorem stackIdx_cons_one (v : LuaValue) (s : List LuaValue)
    (g : List (String × LuaValue)) : stackIdx ⟨v :: s, g⟩ (-1) = v := rfl

theorem stackIdx_cons_two (v w : LuaValue) (s : List LuaValue)
    (g : List (String × LuaValue)) : stackIdx ⟨v :: w :: s, g⟩ (-2) = w := rfl

theorem stackIdx_neg_one_eq (L : LuaState) :
    stackIdx L (-1) = L.stack.getD 0 .nil := rfl

theorem stackIdx_neg_two_eq (L : LuaState) :
    stackIdx L (-2) = L.stack.getD 1 .nil := rfl

theorem stackIdx_neg_three_eq (L : LuaState) :
    stackIdx L (-3) = L.stack.getD 2 .nil := rfl

theorem stackIdx_neg_four_eq (L : LuaState) :
    stackIdx L (-4) = L.stack.getD 3 .nil := rfl

theorem SetLuaVariables_table (params : Hash) (flds : List (String × LuaValue))
    (s : List LuaValue) (g : List (String × LuaValue)) :
    SetLuaVariables ⟨.table flds :: s, g⟩ params =
      ⟨.table (params.foldl (fun acc kv => assocSet acc kv.1 kv.2) flds) :: s, g⟩ := by
  induction params generalizing flds with
  | nil => rfl
  | cons kv rest ih =>
      show SetLuaVariables
        (lua_settable (luaPush (lua_pushstring ⟨.table flds :: s, g⟩ kv.1) kv.2)) rest = _
      rw [show lua_settable (luaPush (lua_pushstring ⟨.table flds :: s, g⟩ kv.1) kv.2) =
            (⟨.table (assocSet flds kv.1 kv.2) :: s, g⟩ : LuaState) from rfl]
      rw [ih, List.foldl_cons]

theorem lua_getglobal_eq (L : LuaState) (name : String) :
    lua_getglobal L name = ⟨lookupGlobal L name :: L.stack, L.globals⟩ := rfl

theorem assocGet_assocSet (g : List (String × LuaValue)) (k : String)
    (v : LuaValue) : assocGet (assocSet g k v) k = some v := by
  induction g with
  | nil => simp [assocGet, assocSet]
  | cons hd tl ih =>
      by_cases h : hd.1 = k
      · simp [assocGet, assocSet, h]
      · simp [assocGet, assocSet, h, ih]

theorem adjustResults_four (rs : List LuaValue) :
    ∃ a b c d, adjustResults rs 4 = [a, b, c, d] := by
  match rs with
  | [] => exact ⟨.nil, .nil, .nil, .nil, rfl⟩
  | [a] => exact ⟨a, .nil, .nil, .nil, rfl⟩
  | [a, b] => exact ⟨a, b, .nil, .nil, rfl⟩
  | [a, b, c] => exact ⟨a, b, c, .nil, rfl⟩
  | a :: b :: c :: d :: rest =>
      refine ⟨a, b, c, d, ?_⟩
      have hlen : 4 - (a :: b :: c :: d :: rest).length = 0 := by
        simp [List.length]
      simp [adjustResults, hlen, List.take]

/-- Stack-free characterization of `ScriptedRotation.spin`: the same
branch structure expressed directly on the registered object's value,
its `orientation` field and the outcome of the script call, without the
intermediate stack manipulation.  Proved equal to `spin` below. -/
def spinModel (env : LuaEnv) (r : ScriptedRotation) (L : LuaState)
    (tjd : ℚ) : SpinResult :=
  if tjd ≠ r.lastTime ∨ ¬r.cacheable then
    match lookupGlobal L r.luaRotationObjectName with
    | .table flds =>
      match (assocGet flds "orientation").getD .nil with
      | .fn i =>
        match env i [.table flds, .num tjd] with
        | .ok rs =>
            let out := adjustResults rs 4
            let q : Quaterniond :=
              ⟨luaToNum (out.getD 0 .nil), luaToNum (out.getD 1 .nil),
               luaToNum (out.getD 2 .nil), luaToNum (out.getD 3 .nil)⟩
            ⟨q, { r with lastOrientation := q, lastTime := tjd }, L, [], 1⟩
        | .error msg =>
            ⟨r.lastOrientation, r, L,
             [⟨.warn, "ScriptedRotation failed: " ++ msg ++ "\n"⟩], 1⟩
      | _ => ⟨r.lastOrientation, r, L, [], 0⟩
    | _ => ⟨r.lastOrientation, r, L, [], 0⟩
  else
    ⟨r.lastOrientation, r, L, [], 0⟩

theorem spin_eq_spinModel (env : LuaEnv) (r : ScriptedRotation)
    (L : LuaState) (tjd : ℚ) :
    ScriptedRotation.spin env r L tjd = spinModel env r L tjd := by
  by_cases hb : tjd ≠ r.lastTime ∨ ¬r.cacheable
  case neg =>
    push_neg at hb
    obtain ⟨h1, h2⟩ := hb
    simp [ScriptedRotation.spin, spinModel, h1, h2]
  case pos =>
    cases hga : assocGet L.globals r.luaRotationObjectName with
    | none =>
        simp [ScriptedRotation.spin, spinModel, hb, lua_getglobal, lookupGlobal,
          hga, lua_istable, stackIdx, lua_pop]
    | some v =>
      cases v with
      | table flds =>
        cases ho : assocGet flds "orientation" with
        | none =>
            simp [ScriptedRotation.spin, spinModel, hb, lua_getglobal, lookupGlobal,
              hga, ho, lua_istable, lua_isfunction, lua_gettable, lua_pushstring,
              stackIdx, lua_pop]
        | some w =>
          cases w with
          | fn i =>
              cases he : env i [.table flds, .num tjd] with
              | ok rs =>
                  obtain ⟨a, b, c, d, hout⟩ := adjustResults_four rs
                  simp [ScriptedRotation.spin, spinModel, hb, lua_getglobal,
                    lookupGlobal, hga, ho, he, hout, lua_istable, lua_isfunction,
                    lua_gettable, lua_pushstring, lua_pushvalue, lua_pushnumber,
                    lua_pcall, lua_tonumber, luaToNum, lua_tostring, stackIdx,
                    lua_pop]
              | error msg =>
                  simp [ScriptedRotation.spin, spinModel, hb, lua_getglobal,
                    lookupGlobal, hga, ho, he, lua_istable, lua_isfunction,
                    lua_gettable, lua_pushstring, lua_pushvalue, lua_pushnumber,
                    lua_pcall, lua_tonumber, luaToNum, lua_tostring, stackIdx,
                    lua_pop]
          | nil =>
              simp [ScriptedRotation.spin, spinModel, hb, lua_getglobal,
                lookupGlobal, hga, ho, lua_istable, lua_isfunction, lua_gettable,
                lua_pushstring, stackIdx, lua_pop]
          | num x =>
              simp [ScriptedRotation.spin, spinModel, hb, lua_getglobal,
                lookupGlobal, hga, ho, lua_istable, lua_isfunction, lua_gettable,
                lua_pushstring, stackIdx, lua_pop]
          | str s =>
              simp [ScriptedRotation.spin, spinModel, hb, lua_getglobal,
                lookupGlobal, hga, ho, lua_istable, lua_isfunction, lua_gettable,
                lua_pushstring, stackIdx, lua_pop]
          | table flds2 =>
              simp [ScriptedRotation.spin, spinModel, hb, lua_getglobal,
                lookupGlobal, hga, ho, lua_istable, lua_isfunction, lua_gettable,
                lua_pushstring, stackIdx, lua_pop]
      | nil =>
          simp [ScriptedRotation.spin, spinModel, hb, lua_getglobal, lookupGlobal,
            hga, lua_istable, stackIdx, lua_pop]
      | num x =>
          simp [ScriptedRotation.spin, spinModel, hb, lua_getglobal, lookupGlobal,
            hga, lua_istable, stackIdx, lua_pop]
      | str s =>
          simp [ScriptedRotation.spin, spinModel, hb, lua_getglobal, lookupGlobal,
            hga, lua_istable, stackIdx, lua_pop]
      | fn i =>
          simp [ScriptedRotation.spin, spinModel, hb, lua_getglobal, lookupGlobal,
            hga, lua_istable, stackIdx, lua_pop]

/-- Every spin call either leaves the object and the engine state exactly
as they were and returns the cached orientation, or (on the one success
path) sets the cache time to the requested time, preserves `cacheable`,
returns the newly cached orientation, and still leaves the engine state
unchanged. -/
theorem spin_state (env : LuaEnv) (r : ScriptedRotation) (L : LuaState)
    (tjd : ℚ) :
    ((ScriptedRotation.spin env r L tjd).rot = r ∧
     (ScriptedRotation.spin env r L tjd).lua = L ∧
     (ScriptedRotation.spin env r L tjd).q = r.lastOrientation) ∨
    ((ScriptedRotation.spin env r L tjd).rot.lastTime = tjd ∧
     (ScriptedRotation.spin env r L tjd).rot.cacheable = r.cacheable ∧
     (ScriptedRotation.spin env r L tjd).q =
       (ScriptedRotation.spin env r L tjd).rot.lastOrientation ∧
     (ScriptedRotation.spin env r L tjd).lua = L) := by
  rw [spin_eq_spinModel]
  unfold spinModel
  by_cases hb : tjd ≠ r.lastTime ∨ ¬r.cacheable
  · rw [if_pos hb]
    cases hg : lookupGlobal L r.luaRotationObjectName with
    | table flds =>
        cases ho : assocGet flds "orientation" with
        | none => simp [ho]
        | some w =>
          cases w with
          | fn i =>
              cases he : env i [.table flds, .num tjd] with
              | ok rs => simp [ho, he]
              | error msg => simp [ho, he]
          | nil => simp [ho]
          | num x => simp [ho]
          | str s => simp [ho]
          | table flds2 => simp [ho]
    | nil => simp
    | num x => simp
    | str s => simp
    | fn i => simp
  · rw [if_neg hb]
    simp

/-- On the path where the registered object is a table whose
`orientation` field is a function and the call succeeds, spin performs
exactly one script call, caches the requested time, preserves
`cacheable`, and restores the engine state. -/
theorem spin_call_ok_facts (env : LuaEnv) (r : ScriptedRotation)
    (L : LuaState) (tjd : ℚ) (flds : List (String × LuaValue)) (i : Nat)
    (rs : List LuaValue)
    (hf : lookupGlobal L r.luaRotationObjectName = .table flds)
    (ho : (assocGet flds "orientation").getD .nil = .fn i)
    (he : env i [.table flds, .num tjd] = .ok rs)
    (hb : tjd ≠ r.lastTime ∨ ¬r.cacheable) :
    (ScriptedRotation.spin env r L tjd).calls = 1 ∧
    (ScriptedRotation.spin env r L tjd).rot.lastTime = tjd ∧
    (ScriptedRotation.spin env r L tjd).rot.cacheable = r.cacheable ∧
    (ScriptedRotation.spin env r L tjd).lua = L := by
  rw [spin_eq_spinModel]
  unfold spinModel
  rw [if_pos hb]
  rw [hf]
  simp [ho, he]

/-- On the path where the registered object is a table whose
`orientation` field is a function but the call raises, spin performs one
script call, changes nothing, and logs the engine's error text as a
warning. -/
theorem spin_call_error_facts (env : LuaEnv) (r : ScriptedRotation)
    (L : LuaState) (tjd : ℚ) (flds : List (String × LuaValue)) (i : Nat)
    (msg : String)
    (hf : lookupGlobal L r.luaRotationObjectName = .table flds)
    (ho : (assocGet flds "orientation").getD .nil = .fn i)
    (he : env i [.table flds, .num tjd] = .error msg)
    (hb : tjd ≠ r.lastTime ∨ ¬r.cacheable) :
    ScriptedRotation.spin env r L tjd =
      ⟨r.lastOrientation, r, L,
       [⟨.warn, "ScriptedRotation failed: " ++ msg ++ "\n"⟩], 1⟩ := by
  rw [spin_eq_spinModel]
  unfold spinModel
  rw [if_pos hb]
  rw [hf]
  simp [ho, he]

/-- The pair of results of two consecutive spin calls at the same time,
the second starting from the state left by the first. -/
def spinPair (env : LuaEnv) (r : ScriptedRotation) (L : LuaState)
    (tjd : ℚ) : SpinResult × SpinResult :=
  let s1 := ScriptedRotation.spin env r L tjd
  (s1, ScriptedRotation.spin env s1.rot s1.lua tjd)

/-! Concrete fixtures used by witnesses and counterexamples. -/

/-- An environment in which every script call raises. -/
def envBoom : LuaEnv := fun _ _ => .error "boom"

/-- An environment whose function 2 returns the four numbers 1, 2, 3, 4. -/
def envQuat : LuaEnv := fun i args =>
  match i, args with
  | 2, [.table _, .num _] => .ok [.num 1, .num 2, .num 3, .num 4]
  | _, _ => .error "boom"

/-- A rotation object bound to the global name "obj" with cache time 5. -/
def rBase : ScriptedRotation := { luaRotationObjectName := "obj", lastTime := 5 }

/-- Like `rBase` but with caching disabled. -/
def rNoCache : ScriptedRotation :=
  { luaRotationObjectName := "obj", lastTime := 5, cacheable := false }

/-- An engine state with an empty stack and no globals: the registered
object has vanished. -/
def emptyLua : LuaState := ⟨[], []⟩

/-- An engine state in which "obj" is registered as a table whose
orientation field is function 2. -/
def LObj : LuaState := ⟨[], [("obj", .table [("orientation", .fn 2)])]⟩

/-- C1: if at evaluation time the registered script object is missing
from the global namespace, or its orientation field is absent or not
callable, or the orientation call raises a runtime error, then spin
returns the previous cached result, never raises (it is a total
function), and leaves the whole object — in particular lastResult
(`lastOrientation`) and lastEvaluatedTime (`lastTime`) — unchanged. -/
theorem spin_soft_fail_returns_cached (env : LuaEnv) (r : ScriptedRotation)
    (L : LuaState) (tjd : ℚ)
    (h : (∀ flds, lookupGlobal L r.luaRotationObjectName ≠ .table flds) ∨
         (∃ flds, lookupGlobal L r.luaRotationObjectName = .table flds ∧
            ∀ i, (assocGet flds "orientation").getD .nil ≠ .fn i) ∨
         (∃ flds i msg, lookupGlobal L r.luaRotationObjectName = .table flds ∧
            (assocGet flds "orientation").getD .nil = .fn i ∧
            env i [.table flds, .num tjd] = .error msg)) :
    (ScriptedRotation.spin env r L tjd).q = r.lastOrientation ∧
    (ScriptedRotation.spin env r L tjd).rot = r := by
  rw [spin_eq_spinModel]
  unfold spinModel
  by_cases hb : tjd ≠ r.lastTime ∨ ¬r.cacheable
  · rw [if_pos hb]
    rcases h with h | ⟨flds, hf, hno⟩ | ⟨flds, i, msg, hf, hor, he⟩
    · cases hg : lookupGlobal L r.luaRotationObjectName with
      | table flds => exact absurd hg (h flds)
      | nil => simp
      | num x => simp
      | str s => simp
      | fn i => simp
    · rw [hf]
      cases ho : assocGet flds "orientation" with
      | none => simp [ho]
      | some w =>
        cases w with
        | fn i => exact absurd (by rw [ho]; rfl) (hno i)
        | nil => simp [ho]
        | num x => simp [ho]
        | str s => simp [ho]
        | table flds2 => simp [ho]
    · rw [hf]
      simp [hor, he]
  · rw [if_neg hb]
    simp

/-- C1 witness: with no globals at all the object has vanished, and spin
at time 0 returns the cached orientation and leaves the object as is. -/
theorem spin_soft_fail_returns_cached_witness :
    (ScriptedRotation.spin envBoom rBase emptyLua 0).q = rBase.lastOrientation ∧
    (ScriptedRotation.spin envBoom rBase emptyLua 0).rot = rBase :=
  spin_soft_fail_returns_cached envBoom rBase emptyLua 0
    (Or.inl (fun flds hcontra => by
      simp [lookupGlobal, emptyLua, assocGet, rBase] at hcontra))

/-- C2 counterexample: with `cacheable = true` and the registered object
missing, two consecutive evaluations at the same time perform zero
script-side calls, not exactly one, refuting the claim as stated. -/
theorem spin_exactly_one_call_counterexample :
    rBase.cacheable = true ∧
    (spinPair envBoom rBase emptyLua 0).1.calls +
      (spinPair envBoom rBase emptyLua 0).2.calls ≠ 1 := by
  decide

/-- C2 amended: with `cacheable = true`, evaluating at the cached time
returns the cached result without touching the engine; two consecutive
evaluations at the same time always return bit-identical results; and
they perform exactly one script-side call provided the first call's
orientation invocation succeeds at a fresh time (on soft-failure paths
the count can differ). -/
theorem spin_cache_idempotent_amended (env : LuaEnv) (r : ScriptedRotation)
    (L : LuaState) (tjd : ℚ) (hc : r.cacheable = true) :
    (tjd = r.lastTime →
       ScriptedRotation.spin env r L tjd = ⟨r.lastOrientation, r, L, [], 0⟩) ∧
    ((spinPair env r L tjd).2.q = (spinPair env r L tjd).1.q) ∧
    (∀ flds i rs, lookupGlobal L r.luaRotationObjectName = .table flds →
       (assocGet flds "orientation").getD .nil = .fn i →
       env i [.table flds, .num tjd] = .ok rs → tjd ≠ r.lastTime →
       (spinPair env r L tjd).1.calls + (spinPair env r L tjd).2.calls = 1) := by
  refine ⟨?_, ?_, ?_⟩
  · intro ht
    have hcond : ¬(tjd ≠ r.lastTime ∨ ¬r.cacheable) := by
      rintro (hcon | hcon)
      · exact hcon ht
      · exact hcon hc
    rw [spin_eq_spinModel]
    unfold spinModel
    rw [if_neg hcond]
  · rcases spin_state env r L tjd with ⟨h1, h2, h3⟩ | ⟨h1, h2, h3, h4⟩
    · simp only [spinPair]
      rw [h1, h2]
    · have hcond : ¬(tjd ≠ (ScriptedRotation.spin env r L tjd).rot.lastTime ∨
          ¬(ScriptedRotation.spin env r L tjd).rot.cacheable) := by
        rintro (hcon | hcon)
        · exact hcon h1.symm
        · rw [h2, hc] at hcon
          exact hcon rfl
      have hsec : ScriptedRotation.spin env (ScriptedRotation.spin env r L tjd).rot
          (ScriptedRotation.spin env r L tjd).lua tjd =
          ⟨(ScriptedRotation.spin env r L tjd).rot.lastOrientation,
           (ScriptedRotation.spin env r L tjd).rot,
           (ScriptedRotation.spin env r L tjd).lua, [], 0⟩ := by
        rw [spin_eq_spinModel]
        unfold spinModel
        rw [if_neg hcond]
      simp only [spinPair]
      rw [hsec, ← h3]
  · intro flds i rs hf ho he hne
    obtain ⟨hc1, ht1, hcc, hl1⟩ :=
      spin_call_ok_facts env r L tjd flds i rs hf ho he (Or.inl hne)
    have hcond : ¬(tjd ≠ (ScriptedRotation.spin env r L tjd).rot.lastTime ∨
        ¬(ScriptedRotation.spin env r L tjd).rot.cacheable) := by
      rintro (hcon | hcon)
      · exact hcon ht1.symm
      · rw [hcc, hc] at hcon
        exact hcon rfl
    have hsec : ScriptedRotation.spin env (ScriptedRotation.spin env r L tjd).rot
        (ScriptedRotation.spin env r L tjd).lua tjd =
        ⟨(ScriptedRotation.spin env r L tjd).rot.lastOrientation,
         (ScriptedRotation.spin env r L tjd).rot,
         (ScriptedRotation.spin env r L tjd).lua, [], 0⟩ := by
      rw [spin_eq_spinModel]
      unfold spinModel
      rw [if_neg hcond]
    simp only [spinPair]
    rw [hsec, hc1]
    rfl

/-- C2 amended witness: a successful concrete run performs exactly one
script-side call over two consecutive evaluations at time 0. -/
theorem spin_cache_idempotent_amended_witness :
    (spinPair envQuat rBase LObj 0).1.calls +
      (spinPair envQuat rBase LObj 0).2.calls = 1 :=
  (spin_cache_idempotent_amended envQuat rBase LObj 0 rfl).2.2
    [("orientation", .fn 2)] 2 [.num 1, .num 2, .num 3, .num 4]
    rfl rfl rfl (by decide)

/-- C5: when spin finds the registered object with a callable
orientation field, it invokes it with `(self, time)` (the hypothesis
`he` fixes exactly that argument list) and on success interprets the
four returned values — adjusted to exactly four, converted to numbers
— as the quaternion components (w, x, y, z), stores that quaternion in
`lastOrientation`, sets `lastTime` to the evaluated time, returns the
new quaternion, emits no diagnostic, and performs exactly one call. -/
theorem spin_success_updates_cache (env : LuaEnv) (r : ScriptedRotation)
    (L : LuaState) (tjd : ℚ) (flds : List (String × LuaValue)) (i : Nat)
    (rs : List LuaValue)
    (hf : lookupGlobal L r.luaRotationObjectName = .table flds)
    (ho : (assocGet flds "orientation").getD .nil = .fn i)
    (he : env i [.table flds, .num tjd] = .ok rs)
    (hb : tjd ≠ r.lastTime ∨ ¬r.cacheable) :
    ScriptedRotation.spin env r L tjd =
      ⟨⟨luaToNum ((adjustResults rs 4).getD 0 .nil),
        luaToNum ((adjustResults rs 4).getD 1 .nil),
        luaToNum ((adjustResults rs 4).getD 2 .nil),
        luaToNum ((adjustResults rs 4).getD 3 .nil)⟩,
       { r with
          lastOrientation :=
            ⟨luaToNum ((adjustResults rs 4).getD 0 .nil),
             luaToNum ((adjustResults rs 4).getD 1 .nil),
             luaToNum ((adjustResults rs 4).getD 2 .nil),
             luaToNum ((adjustResults rs 4).getD 3 .nil)⟩,
          lastTime := tjd },
       L, [], 1⟩ := by
  rw [spin_eq_spinModel]
  unfold spinModel
  rw [if_pos hb, hf]
  simp [ho, he]

/-- C5 witness: a concrete successful orientation call returning the
numbers 1, 2, 3, 4 yields the quaternion (w, x, y, z) = (1, 2, 3, 4)
and caches it together with the evaluation time. -/
theorem spin_success_updates_cache_witness :
    ScriptedRotation.spin envQuat rBase LObj 0 =
      ⟨⟨luaToNum ((adjustResults [.num 1, .num 2, .num 3, .num 4] 4).getD 0 .nil),
        luaToNum ((adjustResults [.num 1, .num 2, .num 3, .num 4] 4).getD 1 .nil),
        luaToNum ((adjustResults [.num 1, .num 2, .num 3, .num 4] 4).getD 2 .nil),
        luaToNum ((adjustResults [.num 1, .num 2, .num 3, .num 4] 4).getD 3 .nil)⟩,
       { rBase with
          lastOrientation :=
            ⟨luaToNum ((adjustResults [.num 1, .num 2, .num 3, .num 4] 4).getD 0 .nil),
             luaToNum ((adjustResults [.num 1, .num 2, .num 3, .num 4] 4).getD 1 .nil),
             luaToNum ((adjustResults [.num 1, .num 2, .num 3, .num 4] 4).getD 2 .nil),
             luaToNum ((adjustResults [.num 1, .num 2, .num 3, .num 4] 4).getD 3 .nil)⟩,
          lastTime := 0 },
       LObj, [], 1⟩ :=
  spin_success_updates_cache envQuat rBase LObj 0
    [("orientation", .fn 2)] 2 [.num 1, .num 2, .num 3, .num 4]
    rfl rfl rfl (by decide)

/-- C8 counterexample: an evaluation-time failure (the registered object
has vanished from the namespace) emits no diagnostic message at all,
refuting the claim that every evaluation-time failure is logged. -/
theorem spin_silent_failure_counterexample :
    (ScriptedRotation.spin envBoom rBase emptyLua 0).logs = [] ∧
    (ScriptedRotation.spin envBoom rBase emptyLua 0).rot = rBase := by
  decide

/-- C8 amended: only the runtime-error failure of the orientation call
emits a diagnostic — a warning carrying the engine's error text; the
vanished-object failure and the missing or non-callable orientation
failure are silent. -/
theorem spin_failure_logging_amended (env : LuaEnv) (r : ScriptedRotation)
    (L : LuaState) (tjd : ℚ) (flds : List (String × LuaValue)) (i : Nat)
    (msg : String) :
    ((∀ flds2, lookupGlobal L r.luaRotationObjectName ≠ .table flds2) →
       (ScriptedRotation.spin env r L tjd).logs = []) ∧
    (lookupGlobal L r.luaRotationObjectName = .table flds →
       (∀ j, (assocGet flds "orientation").getD .nil ≠ .fn j) →
       (ScriptedRotation.spin env r L tjd).logs = []) ∧
    (lookupGlobal L r.luaRotationObjectName = .table flds →
       (assocGet flds "orientation").getD .nil = .fn i →
       env i [.table flds, .num tjd] = .error msg →
       (tjd ≠ r.lastTime ∨ ¬r.cacheable) →
       (ScriptedRotation.spin env r L tjd).logs =
         [⟨.warn, "ScriptedRotation failed: " ++ msg ++ "\n"⟩]) := by
  refine ⟨?_, ?_, ?_⟩
  · intro h
    rw [spin_eq_spinModel]
    unfold spinModel
    by_cases hb : tjd ≠ r.lastTime ∨ ¬r.cacheable
    · rw [if_pos hb]
      cases hg : lookupGlobal L r.luaRotationObjectName with
      | table flds2 => exact absurd hg (h flds2)
      | nil => simp
      | num x => simp
      | str s => simp
      | fn j => simp
    · rw [if_neg hb]
  · intro hf hno
    rw [spin_eq_spinModel]
    unfold spinModel
    by_cases hb : tjd ≠ r.lastTime ∨ ¬r.cacheable
    · rw [if_pos hb, hf]
      cases ho : assocGet flds "orientation" with
      | none => simp [ho]
      | some w =>
        cases w with
        | fn j => exact absurd (by rw [ho]; rfl) (hno j)
        | nil => simp [ho]
        | num x => simp [ho]
        | str s => simp [ho]
        | table flds2 => simp [ho]
    · rw [if_neg hb]
  · intro hf ho he hb
    rw [spin_call_error_facts env r L tjd flds i msg hf ho he hb]

/-- C8 amended witness: a concrete runtime error in the orientation call
is logged as a warning carrying the engine's error text. -/
theorem spin_failure_logging_amended_witness :
    (ScriptedRotation.spin envBoom rBase LObj 0).logs =
      [⟨.warn, "ScriptedRotation failed: " ++ "boom" ++ "\n"⟩] :=
  (spin_failure_logging_amended envBoom rBase LObj 0
      [("orientation", .fn 2)] 2 "boom").2.2 rfl rfl rfl (by decide)

/-- C9: with `cacheable = false` and the registered object present with
a callable orientation field, every spin call — including one at a time
equal to `lastTime` — performs the script-side call (exactly one pcall,
whether it succeeds or raises); and the cache-skip branch is taken
exactly when the time equals `lastTime` and `cacheable` is true, in
which case spin returns the cached result untouched. -/
theorem spin_uncacheable_always_calls (env : LuaEnv) (r : ScriptedRotation)
    (L : LuaState) (tjd : ℚ) (flds : List (String × LuaValue)) (i : Nat)
    (hf : lookupGlobal L r.luaRotationObjectName = .table flds)
    (ho : (assocGet flds "orientation").getD .nil = .fn i) :
    (r.cacheable = false → (ScriptedRotation.spin env r L tjd).calls = 1) ∧
    (tjd = r.lastTime → r.cacheable = true →
       ScriptedRotation.spin env r L tjd = ⟨r.lastOrientation, r, L, [], 0⟩) := by
  constructor
  · intro hc
    have hb : tjd ≠ r.lastTime ∨ ¬r.cacheable := Or.inr (by simp [hc])
    cases he : env i [.table flds, .num tjd] with
    | ok rs => exact (spin_call_ok_facts env r L tjd flds i rs hf ho he hb).1
    | error msg => rw [spin_call_error_facts env r L tjd flds i msg hf ho he hb]
  · intro ht hc
    have hcond : ¬(tjd ≠ r.lastTime ∨ ¬r.cacheable) := by
      rintro (hcon | hcon)
      · exact hcon ht
      · exact hcon hc
    rw [spin_eq_spinModel]
    unfold spinModel
    rw [if_neg hcond]

/-- C9 witness: with caching disabled, a spin call at a time equal to
the cached `lastTime` still performs the script call. -/
theorem spin_uncacheable_always_calls_witness :
    rNoCache.lastTime = 5 ∧ (ScriptedRotation.spin envQuat rNoCache LObj 5).calls = 1 :=
  ⟨rfl,
   (spin_uncacheable_always_calls envQuat rNoCache LObj 5
      [("orientation", .fn 2)] 2 rfl rfl).1 rfl⟩

/-- When the registered object is a table without a callable orientation
field, spin is a complete no-op: it returns the cached orientation,
leaves the object and the engine state untouched, logs nothing and
performs no script call (this covers both the cache-skip branch and the
soft-failure branch). -/
theorem spin_no_orientation (env : LuaEnv) (r : ScriptedRotation)
    (L : LuaState) (tjd : ℚ) (flds : List (String × LuaValue))
    (hf : lookupGlobal L r.luaRotationObjectName = .table flds)
    (hno : ∀ i, (assocGet flds "orientation").getD .nil ≠ .fn i) :
    ScriptedRotation.spin env r L tjd = ⟨r.lastOrientation, r, L, [], 0⟩ := by
  rw [spin_eq_spinModel]
  unfold spinModel
  by_cases hb : tjd ≠ r.lastTime ∨ ¬r.cacheable
  · rw [if_pos hb, hf]
    cases ho : assocGet flds "orientation" with
    | none => simp [ho]
    | some w =>
      cases w with
      | fn i => exact absurd (by rw [ho]; rfl) (hno i)
      | nil => simp [ho]
      | num x => simp [ho]
      | str s => simp [ho]
      | table flds2 => simp [ho]
  · rw [if_neg hb]

/-- Characterization of a successful factory-call stage: success forces
the call to have returned normally with a table on top of the stack and
the declared valid range not inverted, and the result registers that
table under the generated name and stores its declared fields
verbatim. -/
theorem factoryCallResult_char (n : Nat) (mlLogs : List LogMsg)
    (mlCalls : Nat) (r : ScriptedRotation) (pc : LuaState × Bool)
    (h : (factoryCallResult n mlLogs mlCalls r pc).ok = true) :
    ∃ tf rest g, pc = (⟨.table tf :: rest, g⟩, true) ∧
      ¬(luaFieldNum (.table tf) "endDate" 0 < luaFieldNum (.table tf) "beginDate" 0) ∧
      factoryCallResult n mlLogs mlCalls r pc =
        ⟨true,
         { r with luaRotationObjectName := GenerateScriptObjectName n,
                  period := luaFieldNum (.table tf) "period" 0,
                  validRangeBegin := luaFieldNum (.table tf) "beginDate" 0,
                  validRangeEnd := luaFieldNum (.table tf) "endDate" 0 },
         ⟨some ⟨rest, assocSet g (GenerateScriptObjectName n) (.table tf)⟩, n + 1⟩,
         mlLogs, mlCalls + 1⟩ := by
  obtain ⟨⟨sstack, sglobals⟩, ok5⟩ := pc
  cases ok5 with
  | false => simp [factoryCallResult] at h
  | true =>
    cases sstack with
    | nil => simp [factoryCallResult, lua_istable, stackIdx_neg_one_eq] at h
    | cons v rest =>
      cases v with
      | table tf =>
          by_cases hlt : luaFieldNum (.table tf) "endDate" 0 <
              luaFieldNum (.table tf) "beginDate" 0
          · exfalso
            simp [factoryCallResult, lua_istable, lua_pushvalue, lua_setglobal,
              lua_pop, SafeGetLuaNumber, stackIdx_neg_one_eq, hlt] at h
          · refine ⟨tf, rest, sglobals, rfl, hlt, ?_⟩
            simp [factoryCallResult, lua_istable, lua_pushvalue, lua_setglobal,
              lua_pop, SafeGetLuaNumber, stackIdx_neg_one_eq, hlt]
      | nil => simp [factoryCallResult, lua_istable, stackIdx_neg_one_eq] at h
      | num x => simp [factoryCallResult, lua_istable, stackIdx_neg_one_eq] at h
      | str s => simp [factoryCallResult, lua_istable, stackIdx_neg_one_eq] at h
      | fn i => simp [factoryCallResult, lua_istable, stackIdx_neg_one_eq] at h

/-- A successful initialise always reaches the factory-call stage: its
result is some `factoryCallResult` application. -/
theorem initialise_ok_factory (env : LuaEnv) (m : Option String)
    (f : String) (ps : Option Hash) (p : String) (ctx : ScriptContext)
    (r : ScriptedRotation)
    (h : (ScriptedRotation.initialise env m f ps p ctx r).ok = true) :
    ∃ pc mlLogs mlCalls,
      ScriptedRotation.initialise env m f ps p ctx r =
        factoryCallResult ctx.nameCounter mlLogs mlCalls r pc := by
  obtain ⟨olua, n⟩ := ctx
  cases ps with
  | none => simp [ScriptedRotation.initialise] at h
  | some params =>
    cases olua with
    | none => simp [ScriptedRotation.initialise] at h
    | some L0 =>
      by_cases hml : (loadModuleStep env m L0).ok = true
      · cases hfn : lookupGlobal (loadModuleStep env m L0).lua f with
        | fn j =>
            refine ⟨lua_pcall env (lua_settable (lua_pushstring (lua_pushstring
                (SetLuaVariables (lua_newtable
                  (lua_getglobal (loadModuleStep env m L0).lua f)) params)
                "AddonPath") p)) 1 1,
              (loadModuleStep env m L0).logs, (loadModuleStep env m L0).calls, ?_⟩
            unfold ScriptedRotation.initialise
            simp [hml, lua_getglobal_eq, hfn, lua_isfunction,
              stackIdx_neg_one_eq, List.getD_cons_zero]
        | nil =>
            simp [ScriptedRotation.initialise, hml, lua_getglobal_eq, hfn,
              lua_isfunction, stackIdx_neg_one_eq, List.getD_cons_zero] at h
        | num x =>
            simp [ScriptedRotation.initialise, hml, lua_getglobal_eq, hfn,
              lua_isfunction, stackIdx_neg_one_eq, List.getD_cons_zero] at h
        | str s =>
            simp [ScriptedRotation.initialise, hml, lua_getglobal_eq, hfn,
              lua_isfunction, stackIdx_neg_one_eq, List.getD_cons_zero] at h
        | table flds =>
            simp [ScriptedRotation.initialise, hml, lua_getglobal_eq, hfn,
              lua_isfunction, stackIdx_neg_one_eq, List.getD_cons_zero] at h
      · simp [ScriptedRotation.initialise, hml] at h

/-- C4: whenever initialise succeeds, getValidRange returns exactly the
pair (validRangeBegin, validRangeEnd), the range is not inverted, and
both bounds are stored verbatim from the fields declared on the
registered factory table (so construction never silently clamps: a
declared endDate < beginDate makes success impossible). -/
theorem initialise_valid_range (env : LuaEnv) (m : Option String)
    (f : String) (ps : Option Hash) (p : String) (ctx : ScriptContext)
    (r : ScriptedRotation)
    (h : (ScriptedRotation.initialise env m f ps p ctx r).ok = true) :
    ScriptedRotation.getValidRange (ScriptedRotation.initialise env m f ps p ctx r).rot =
      ((ScriptedRotation.initialise env m f ps p ctx r).rot.validRangeBegin,
       (ScriptedRotation.initialise env m f ps p ctx r).rot.validRangeEnd) ∧
    (ScriptedRotation.initialise env m f ps p ctx r).rot.validRangeBegin ≤
      (ScriptedRotation.initialise env m f ps p ctx r).rot.validRangeEnd ∧
    ∃ L', (ScriptedRotation.initialise env m f ps p ctx r).ctx.lua = some L' ∧
      (ScriptedRotation.initialise env m f ps p ctx r).rot.validRangeBegin =
        luaFieldNum (lookupGlobal L'
          (ScriptedRotation.initialise env m f ps p ctx r).rot.luaRotationObjectName)
          "beginDate" 0 ∧
      (ScriptedRotation.initialise env m f ps p ctx r).rot.validRangeEnd =
        luaFieldNum (lookupGlobal L'
          (ScriptedRotation.initialise env m f ps p ctx r).rot.luaRotationObjectName)
          "endDate" 0 := by
  obtain ⟨pc, mlLogs, mlCalls, heq⟩ := initialise_ok_factory env m f ps p ctx r h
  rw [heq] at h ⊢
  obtain ⟨tf, rest, g, hpc, hlt, hchar⟩ :=
    factoryCallResult_char ctx.nameCounter mlLogs mlCalls r pc h
  rw [hchar]
  refine ⟨rfl, not_lt.mp hlt,
    ⟨rest, assocSet g (GenerateScriptObjectName ctx.nameCounter) (.table tf)⟩,
    rfl, ?_, ?_⟩
  · simp [lookupGlobal, assocGet_assocSet]
  · simp [lookupGlobal, assocGet_assocSet]

/-- An environment whose function 1 is a factory returning a table
declaring period 3 and the valid range [1, 2]. -/
def envInit : LuaEnv := fun i args =>
  match i, args with
  | 1, [.table _] =>
      .ok [.table [("period", .num 3), ("beginDate", .num 1), ("endDate", .num 2)]]
  | _, _ => .error "boom"

/-- A context whose engine has an empty stack and a single global
binding the factory name "makeRot" to function 1. -/
def ctxInit : ScriptContext := ⟨some ⟨[], [("makeRot", .fn 1)]⟩, 0⟩

/-- C4 witness: a concrete successful construction stores the declared
range [1, 2] and reports it through getValidRange. -/
theorem initialise_valid_range_witness :
    ScriptedRotation.getValidRange
        (ScriptedRotation.initialise envInit none "makeRot" (some []) "p" ctxInit {}).rot =
      ((ScriptedRotation.initialise envInit none "makeRot" (some []) "p" ctxInit {}).rot.validRangeBegin,
       (ScriptedRotation.initialise envInit none "makeRot" (some []) "p" ctxInit {}).rot.validRangeEnd) ∧
    (ScriptedRotation.initialise envInit none "makeRot" (some []) "p" ctxInit {}).rot.validRangeBegin ≤
      (ScriptedRotation.initialise envInit none "makeRot" (some []) "p" ctxInit {}).rot.validRangeEnd ∧
    ∃ L', (ScriptedRotation.initialise envInit none "makeRot" (some []) "p" ctxInit {}).ctx.lua = some L' ∧
      (ScriptedRotation.initialise envInit none "makeRot" (some []) "p" ctxInit {}).rot.validRangeBegin =
        luaFieldNum (lookupGlobal L'
          (ScriptedRotation.initialise envInit none "makeRot" (some []) "p" ctxInit {}).rot.luaRotationObjectName)
          "beginDate" 0 ∧
      (ScriptedRotation.initialise envInit none "makeRot" (some []) "p" ctxInit {}).rot.validRangeEnd =
        luaFieldNum (lookupGlobal L'
          (ScriptedRotation.initialise envInit none "makeRot" (some []) "p" ctxInit {}).rot.luaRotationObjectName)
          "endDate" 0 :=
  initialise_valid_range envInit none "makeRot" (some []) "p" ctxInit {} rfl

/-- C6: getPeriod returns the span of the valid range when period is 0
and the period itself otherwise, and isPeriodic holds exactly when the
period is nonzero. -/
theorem getPeriod_isPeriodic_spec (r : ScriptedRotation) :
    (r.period = 0 →
       ScriptedRotation.getPeriod r = r.validRangeEnd - r.validRangeBegin) ∧
    (r.period ≠ 0 → ScriptedRotation.getPeriod r = r.period) ∧
    (ScriptedRotation.isPeriodic r = true ↔ r.period ≠ 0) := by
  refine ⟨fun h => ?_, fun h => ?_, ?_⟩
  · simp [ScriptedRotation.getPeriod, h]
  · simp [ScriptedRotation.getPeriod, h]
  · simp [ScriptedRotation.isPeriodic]

/-- C6 witness: at period 2 the period is reported as is, and at period
0 the span of the valid range [1, 4] is reported. -/
theorem getPeriod_isPeriodic_spec_witness :
    ScriptedRotation.getPeriod { period := 2 } = 2 ∧
    ScriptedRotation.isPeriodic { period := 2 } = true ∧
    ScriptedRotation.getPeriod { validRangeBegin := 1, validRangeEnd := 4 } = 3 :=
  ⟨(getPeriod_isPeriodic_spec { period := 2 }).2.1 (by decide),
   (getPeriod_isPeriodic_spec { period := 2 }).2.2.mpr (by decide),
   by
    have := (getPeriod_isPeriodic_spec
      { validRangeBegin := 1, validRangeEnd := 4 }).1 (by decide)
    rw [this]
    norm_num⟩

/-- C7: with an absent parameters table, initialise fails immediately:
it returns false, leaves the object and the whole shared context
(including the engine state and the name counter) untouched, emits no
diagnostic and performs no script call. -/
theorem initialise_missing_parameters (env : LuaEnv) (m : Option String)
    (f : String) (p : String) (ctx : ScriptContext) (r : ScriptedRotation) :
    ScriptedRotation.initialise env m f none p ctx r = ⟨false, r, ctx, [], 0⟩ := rfl

/-- An environment whose function 0 is a `require` implementation that
successfully loads the module "mod" (returning nil, as a module with no
explicit return value does). -/
def envLeak : LuaEnv := fun i args =>
  match i, args with
  | 0, [.str "mod"] => .ok [.nil]
  | _, _ => .error "boom"

/-- A context whose engine has an empty stack and only `require`
defined. -/
def ctxLeak : ScriptContext := ⟨some ⟨[], [("require", .fn 0)]⟩, 0⟩

/-- An environment whose function 1 is a factory returning a table with
an inverted valid range (beginDate 20, endDate 10). -/
def envRange : LuaEnv := fun i args =>
  match i, args with
  | 1, [.table _] => .ok [.table [("beginDate", .num 20), ("endDate", .num 10)]]
  | _, _ => .error "boom"

/-- A context whose engine has an empty stack and the factory name
"makeRot" bound to function 1. -/
def ctxRange : ScriptContext := ⟨some ⟨[], [("makeRot", .fn 1)]⟩, 0⟩

/-- C3 (code bug evidence): two failure branches of initialise leave the
shared engine dirty.  First run: the module "mod" loads successfully
(entry stack depth 0) and the factory name is then not found, a failure
branch — yet the module's return value is left on the stack (exit depth
1, not the entry depth).  Second run: the factory returns a table with
endDate < beginDate, the valid-range failure branch — yet the object
stays registered under the generated global name "celscriptobj0". -/
theorem initialise_failure_leaves_stack_and_registration :
    ((ScriptedRotation.initialise envLeak (some "mod") "makeRot" (some []) "p" ctxLeak {}).ok = false ∧
     (ScriptedRotation.initialise envLeak (some "mod") "makeRot" (some []) "p" ctxLeak {}).ctx.lua =
       some ⟨[.nil], [("require", .fn 0)]⟩) ∧
    ((ScriptedRotation.initialise envRange none "makeRot" (some []) "p" ctxRange {}).ok = false ∧
     (ScriptedRotation.initialise envRange none "makeRot" (some []) "p" ctxRange {}).ctx.lua =
       some ⟨[], [("makeRot", .fn 1),
                  ("celscriptobj0", .table [("beginDate", .num 20), ("endDate", .num 10)])]⟩) :=
  ⟨⟨rfl, rfl⟩, ⟨rfl, rfl⟩⟩

/-- C10: initialise never inspects the orientation field of the
factory-returned table — with a factory returning a table with no
callable orientation (and a sane range), construction still succeeds,
and every subsequent spin call soft-fails: it returns the previous
cached value (the identity default when nothing was ever computed),
changes nothing, and performs no script call. -/
theorem initialise_ignores_orientation_field (env : LuaEnv) (f p : String)
    (params : Hash) (n : Nat) (L0 : LuaState) (r : ScriptedRotation)
    (j : Nat) (tf : List (String × LuaValue)) (tjd : ℚ)
    (hfn : lookupGlobal L0 f = .fn j)
    (henv : ∀ args, env j args = .ok [.table tf])
    (hno : ∀ i, (assocGet tf "orientation").getD .nil ≠ .fn i)
    (hrange : ¬(luaFieldNum (.table tf) "endDate" 0 <
        luaFieldNum (.table tf) "beginDate" 0)) :
    (ScriptedRotation.initialise env none f (some params) p ⟨some L0, n⟩ r).ok = true ∧
    ∃ L', (ScriptedRotation.initialise env none f (some params) p ⟨some L0, n⟩ r).ctx.lua = some L' ∧
      ScriptedRotation.spin env
          (ScriptedRotation.initialise env none f (some params) p ⟨some L0, n⟩ r).rot L' tjd =
        ⟨r.lastOrientation,
         (ScriptedRotation.initialise env none f (some params) p ⟨some L0, n⟩ r).rot,
         L', [], 0⟩ := by
  have hinit : ScriptedRotation.initialise env none f (some params) p ⟨some L0, n⟩ r =
      factoryCallResult n [] 0 r (⟨.table tf :: L0.stack, L0.globals⟩, true) := by
    unfold ScriptedRotation.initialise
    simp [loadModuleStep, lua_getglobal_eq, hfn, lua_isfunction,
      stackIdx_neg_one_eq, lua_newtable, SetLuaVariables_table,
      lua_pushstring, lua_settable, stackIdx_neg_two_eq, stackIdx_neg_three_eq,
      lua_pcall, henv, adjustResults]
  have hfin : factoryCallResult n [] 0 r (⟨.table tf :: L0.stack, L0.globals⟩, true) =
      ⟨true,
       { r with luaRotationObjectName := GenerateScriptObjectName n,
                period := luaFieldNum (.table tf) "period" 0,
                validRangeBegin := luaFieldNum (.table tf) "beginDate" 0,
                validRangeEnd := luaFieldNum (.table tf) "endDate" 0 },
       ⟨some ⟨L0.stack, assocSet L0.globals (GenerateScriptObjectName n) (.table tf)⟩, n + 1⟩,
       [], 1⟩ := by
    simp [factoryCallResult, lua_istable, lua_pushvalue, lua_setglobal,
      lua_pop, SafeGetLuaNumber, stackIdx_neg_one_eq, hrange]
  rw [hinit, hfin]
  refine ⟨rfl,
    ⟨L0.stack, assocSet L0.globals (GenerateScriptObjectName n) (.table tf)⟩,
    rfl, ?_⟩
  have hf2 : lookupGlobal
      ⟨L0.stack, assocSet L0.globals (GenerateScriptObjectName n) (.table tf)⟩
      ({ r with luaRotationObjectName := GenerateScriptObjectName n,
                period := luaFieldNum (.table tf) "period" 0,
                validRangeBegin := luaFieldNum (.table tf) "beginDate" 0,
                validRangeEnd := luaFieldNum (.table tf) "endDate" 0 } :
        ScriptedRotation).luaRotationObjectName = .table tf := by
    simp [lookupGlobal, assocGet_assocSet]
  exact spin_no_orientation env _ _ tjd tf hf2 hno

/-- An environment whose function 1 is a factory returning a table with
a period but no orientation field at all. -/
def envNoOrient : LuaEnv := fun i _ =>
  match i with
  | 1 => .ok [.table [("period", .num 1)]]
  | _ => .error "boom"

/-- C10 witness: a concrete factory table without any orientation field
still constructs successfully, and a later spin call at time 7 returns
the identity default and performs no script call. -/
theorem initialise_ignores_orientation_field_witness :
    (ScriptedRotation.initialise envNoOrient none "makeRot" (some [])
        "p" ⟨some ⟨[], [("makeRot", .fn 1)]⟩, 0⟩ {}).ok = true ∧
    ∃ L', (ScriptedRotation.initialise envNoOrient none "makeRot" (some [])
        "p" ⟨some ⟨[], [("makeRot", .fn 1)]⟩, 0⟩ {}).ctx.lua = some L' ∧
      ScriptedRotation.spin envNoOrient
          (ScriptedRotation.initialise envNoOrient none "makeRot" (some [])
            "p" ⟨some ⟨[], [("makeRot", .fn 1)]⟩, 0⟩ {}).rot L' 7 =
        ⟨({} : ScriptedRotation).lastOrientation,
         (ScriptedRotation.initialise envNoOrient none "makeRot" (some [])
           "p" ⟨some ⟨[], [("makeRot", .fn 1)]⟩, 0⟩ {}).rot,
         L', [], 0⟩ :=
  initialise_ignores_orientation_field envNoOrient "makeRot" "p" [] 0
    ⟨[], [("makeRot", .fn 1)]⟩ {} 1 [("period", .num 1)] 7
    rfl (fun _ => rfl)
    (fun i hcontra => by simp [assocGet] at hcontra)
    (by decide)

end CelScriptRotation
